import Mathlib

/-
Verification of the ReflectAI client runtime (NoClue_Hackoween_ReflectAI).

The development shallowly embeds the state and operations of the two mirror
components (src/reflect-empathy-ai/src/components/MirrorInterface.tsx and
MirrorWithOnboarding.tsx) and of the plain-React check-in variant
(src/unnamed/part_000).  Component state (useState hooks) is modelled as an
explicit state record threaded through each operation; browser/server
nondeterminism (captured frames, fetch outcomes, Math.random) is passed in as
an explicit environment.  JavaScript truthiness of the values that actually
flow through the code (strings, numbers, undefined/null) is modelled
faithfully: an absent field is Option.none, the empty string and the number 0
are falsy.  Numbers are rationals, since every numeric literal involved
(0.8, 0.92, ...) is exactly representable.
-/

namespace ReflectAI

namespace Mirror

/-- EmotionResult from MirrorInterface.tsx:
`{ emotion: string; confidence: number; dominantEmotion?: string }`. -/
structure EmotionResult where
  emotion : String
  confidence : ℚ
  dominantEmotion : Option String := none
deriving DecidableEq

/-- Object form of the `emotion` field of the server response, as destructured
by `analyzeEmotion` (fields `dominant_emotion`, `emotion`, `label`,
`confidence`; each may be absent). -/
structure EmotionObj where
  dominant_emotion : Option String
  emotion : Option String
  label : Option String
  confidence : Option ℚ
deriving DecidableEq

/-- The JavaScript value found in `result.emotion`:
absent/undefined, a string, an object, or some other truthy or falsy value
(a number, a boolean, null ...). -/
inductive JSEmotion where
  | undef
  | str (s : String)
  | obj (o : EmotionObj)
  | otherTruthy
  | otherFalsy
deriving DecidableEq

/-- JavaScript `a || b` for an optional string `a`: `undefined` and the empty
string are falsy, every other string is returned as is. -/
def jsOrS (a : Option String) (b : String) : String :=
  match a with
  | some s => if s = "" then b else s
  | none => b

/-- JavaScript `c || 0.8` for the optional numeric `confidence` field:
`undefined` and 0 are falsy and yield the default 0.8. -/
def jsConf (a : Option ℚ) : ℚ :=
  match a with
  | some q => if q = 0 then 4/5 else q
  | none => 4/5

/-- The default result produced when `result.emotion` is falsy or of an
unexpected type: `{ emotion: 'neutral', confidence: 0.8 }`. -/
def neutralResult : EmotionResult := ⟨"neutral", 4/5, none⟩

/-- The normalization of `result.emotion` performed inside `analyzeEmotion`
(MirrorInterface.tsx lines 186-212):
a truthy string is used with confidence 0.8; an object yields
`dominant_emotion || emotion || label || 'neutral'`,
`confidence || 0.8`, and `dominantEmotion := dominant_emotion`;
everything else (absent, falsy, or of another type) yields the neutral
default.  Note that the outer `if (result.emotion)` already sends the empty
string and other falsy values to the default branch. -/
def normalizeEmotion : JSEmotion → EmotionResult
  | JSEmotion.str s => if s = "" then neutralResult else ⟨s, 4/5, none⟩
  | JSEmotion.obj o =>
      ⟨jsOrS o.dominant_emotion (jsOrS o.emotion (jsOrS o.label "neutral")),
       jsConf o.confidence, o.dominant_emotion⟩
  | _ => neutralResult

/-- The emotion-history update of `analyzeEmotion`
(`setEmotionHistory(prev => [...prev, emotionData].slice(-10))`).
JavaScript `slice(-10)` keeps the last 10 elements (or all of them when the
array is shorter), i.e. it drops `length - 10` elements from the front. -/
def appendHistory (prev : List EmotionResult) (e : EmotionResult) : List EmotionResult :=
  (prev ++ [e]).drop ((prev ++ [e]).length - 10)

/-- The fixed five-element fallback set `mockEmotions` of `analyzeEmotion`. -/
def mockEmotions : List EmotionResult :=
  [⟨"neutral", 9/10, none⟩, ⟨"happy", 85/100, none⟩, ⟨"surprised", 7/10, none⟩,
   ⟨"calm", 8/10, none⟩, ⟨"confused", 6/10, none⟩]

/-- `mockEmotions[Math.floor(Math.random() * mockEmotions.length)]`; the index
is always in range, so the lookup never falls back to its default. -/
def pickMock (i : Fin 5) : EmotionResult :=
  mockEmotions.getD i.val ⟨"neutral", 9/10, none⟩

end Mirror

end ReflectAI

namespace ReflectAI

namespace Mirror

lemma appendHistory_length_le (h : List EmotionResult) (e : EmotionResult) :
    (appendHistory h e).length ≤ 10 := by
  simp [appendHistory]
  omega

lemma foldl_appendHistory_length_le (rs : List EmotionResult) :
    ∀ h : List EmotionResult, h.length ≤ 10 →
      (rs.foldl appendHistory h).length ≤ 10 := by
  induction rs with
  | nil => intro h hh; simpa using hh
  | cons r rs ih =>
      intro h _
      simpa using ih (appendHistory h r) (appendHistory_length_le h r)

end Mirror

/-- C2: every history reachable by appending results to the initially empty
EmotionHistory has length at most 10; appending to a full history of 10
evicts exactly the oldest entry; and the updated history is always a suffix
of the old history with the new entry appended, so the relative order of the
retained entries is preserved and nothing is ever reordered. -/
theorem c2_emotion_history_bounded_fifo :
    (∀ rs : List Mirror.EmotionResult,
      (rs.foldl Mirror.appendHistory []).length ≤ 10) ∧
    (∀ (h : List Mirror.EmotionResult) (e : Mirror.EmotionResult),
      h.length = 10 → Mirror.appendHistory h e = h.drop 1 ++ [e]) ∧
    (∀ (h : List Mirror.EmotionResult) (e : Mirror.EmotionResult),
      Mirror.appendHistory h e <:+ h ++ [e]) := by
  refine ⟨fun rs => Mirror.foldl_appendHistory_length_le rs [] (by simp), ?_, ?_⟩
  · intro h e hlen
    cases h with
    | nil => simp at hlen
    | cons a t =>
        have ht : t.length = 9 := by simpa using hlen
        simp [Mirror.appendHistory, ht]
  · intro h e
    exact List.drop_suffix _ _

/-- C2 witness: concrete instances of the three parts of
c2_emotion_history_bounded_fifo, evaluated on a concrete full history. -/
theorem c2_emotion_history_bounded_fifo_witness :
    Mirror.appendHistory
        [⟨"a0", 0, none⟩, ⟨"a1", 0, none⟩, ⟨"a2", 0, none⟩, ⟨"a3", 0, none⟩,
         ⟨"a4", 0, none⟩, ⟨"a5", 0, none⟩, ⟨"a6", 0, none⟩, ⟨"a7", 0, none⟩,
         ⟨"a8", 0, none⟩, ⟨"a9", 0, none⟩] ⟨"b", 1, none⟩ =
      [⟨"a1", 0, none⟩, ⟨"a2", 0, none⟩, ⟨"a3", 0, none⟩, ⟨"a4", 0, none⟩,
       ⟨"a5", 0, none⟩, ⟨"a6", 0, none⟩, ⟨"a7", 0, none⟩, ⟨"a8", 0, none⟩,
       ⟨"a9", 0, none⟩, ⟨"b", 1, none⟩] := by
  have h := c2_emotion_history_bounded_fifo.2.1
    [⟨"a0", 0, none⟩, ⟨"a1", 0, none⟩, ⟨"a2", 0, none⟩, ⟨"a3", 0, none⟩,
     ⟨"a4", 0, none⟩, ⟨"a5", 0, none⟩, ⟨"a6", 0, none⟩, ⟨"a7", 0, none⟩,
     ⟨"a8", 0, none⟩, ⟨"a9", 0, none⟩] ⟨"b", 1, none⟩ (by rfl)
  simpa using h

/-- C5 counterexample: the claim states that the normalized emotion is the
first PRESENT of dominant_emotion/emotion/label and that the confidence
defaults to 0.8 only when the confidence field is ABSENT.  On the response
`{emotion: {dominant_emotion: "", emotion: "sad", confidence: 0}}` both
fields are present, yet the code returns emotion "sad" (not the present
dominant_emotion "") and confidence 0.8 (not the present confidence 0),
because JavaScript `||` also skips falsy present values. -/
theorem c5_counterexample_falsy_fields :
    Mirror.normalizeEmotion
        (Mirror.JSEmotion.obj ⟨some "", some "sad", none, some 0⟩) =
      ⟨"sad", 4/5, some ""⟩ ∧
    (Mirror.normalizeEmotion
        (Mirror.JSEmotion.obj ⟨some "", some "sad", none, some 0⟩)).emotion ≠ "" ∧
    (Mirror.normalizeEmotion
        (Mirror.JSEmotion.obj ⟨some "", some "sad", none, some 0⟩)).confidence ≠ 0 := by
  refine ⟨?_, ?_, ?_⟩ <;>
    simp [Mirror.normalizeEmotion, Mirror.jsOrS, Mirror.jsConf, Mirror.neutralResult]

/-- C5 (amended): for a server response whose emotion field is an object, the
result emotion is the first TRUTHY (present and non-empty) of
dominant_emotion, emotion, label, defaulting to "neutral" when none is
truthy; the result confidence is the object's confidence field when that
field is present and non-zero, and 0.8 otherwise (absent or zero);
dominantEmotion passes through the raw dominant_emotion field; in particular
`{emotion:{dominant_emotion:"happy", confidence:0.92}}` yields
`{emotion:"happy", confidence:0.92, dominantEmotion:"happy"}`. -/
theorem c5_normalizer_object_truthy_chain :
    (∀ (o : Mirror.EmotionObj) (q : ℚ), o.confidence = some q → q ≠ 0 →
      (Mirror.normalizeEmotion (Mirror.JSEmotion.obj o)).confidence = q) ∧
    (∀ o : Mirror.EmotionObj, (o.confidence = none ∨ o.confidence = some 0) →
      (Mirror.normalizeEmotion (Mirror.JSEmotion.obj o)).confidence = 4/5) ∧
    (∀ (o : Mirror.EmotionObj) (d : String), o.dominant_emotion = some d → d ≠ "" →
      (Mirror.normalizeEmotion (Mirror.JSEmotion.obj o)).emotion = d) ∧
    (∀ (o : Mirror.EmotionObj) (e : String),
      (o.dominant_emotion = none ∨ o.dominant_emotion = some "") →
      o.emotion = some e → e ≠ "" →
      (Mirror.normalizeEmotion (Mirror.JSEmotion.obj o)).emotion = e) ∧
    (∀ (o : Mirror.EmotionObj) (l : String),
      (o.dominant_emotion = none ∨ o.dominant_emotion = some "") →
      (o.emotion = none ∨ o.emotion = some "") →
      o.label = some l → l ≠ "" →
      (Mirror.normalizeEmotion (Mirror.JSEmotion.obj o)).emotion = l) ∧
    (∀ o : Mirror.EmotionObj,
      (o.dominant_emotion = none ∨ o.dominant_emotion = some "") →
      (o.emotion = none ∨ o.emotion = some "") →
      (o.label = none ∨ o.label = some "") →
      (Mirror.normalizeEmotion (Mirror.JSEmotion.obj o)).emotion = "neutral") ∧
    (∀ o : Mirror.EmotionObj,
      (Mirror.normalizeEmotion (Mirror.JSEmotion.obj o)).dominantEmotion =
        o.dominant_emotion) ∧
    Mirror.normalizeEmotion
        (Mirror.JSEmotion.obj ⟨some "happy", none, none, some (92/100)⟩) =
      ⟨"happy", 92/100, some "happy"⟩ := by
  refine ⟨?_, ?_, ?_, ?_, ?_, ?_, ?_,
    by simp [Mirror.normalizeEmotion, Mirror.jsOrS, Mirror.jsConf]⟩
  · intro o q hq hne
    simp [Mirror.normalizeEmotion, Mirror.jsConf, hq, hne]
  · rintro o (hq | hq) <;> simp [Mirror.normalizeEmotion, Mirror.jsConf, hq]
  · intro o d hd hne
    simp [Mirror.normalizeEmotion, Mirror.jsOrS, hd, hne]
  · rintro o e (hd | hd) he hne <;>
      simp [Mirror.normalizeEmotion, Mirror.jsOrS, hd, he, hne]
  · rintro o l (hd | hd) (he | he) hl hne <;>
      simp [Mirror.normalizeEmotion, Mirror.jsOrS, hd, he, hl, hne]
  · rintro o (hd | hd) (he | he) (hl | hl) <;>
      simp [Mirror.normalizeEmotion, Mirror.jsOrS, hd, he, hl]
  · intro o
    simp [Mirror.normalizeEmotion]

/-- C5 witness: the amended normalizer characterization applied at concrete
inputs, discharging each hypothesis. -/
theorem c5_normalizer_object_truthy_chain_witness :
    (Mirror.normalizeEmotion
        (Mirror.JSEmotion.obj ⟨none, none, none, some (1/2)⟩)).confidence = 1/2 ∧
    (Mirror.normalizeEmotion
        (Mirror.JSEmotion.obj ⟨none, none, none, some 0⟩)).confidence = 4/5 ∧
    (Mirror.normalizeEmotion
        (Mirror.JSEmotion.obj ⟨some "happy", some "sad", none, none⟩)).emotion = "happy" ∧
    (Mirror.normalizeEmotion
        (Mirror.JSEmotion.obj ⟨some "", some "sad", none, none⟩)).emotion = "sad" ∧
    (Mirror.normalizeEmotion
        (Mirror.JSEmotion.obj ⟨none, some "", some "calm", none⟩)).emotion = "calm" ∧
    (Mirror.normalizeEmotion
        (Mirror.JSEmotion.obj ⟨none, some "", none, none⟩)).emotion = "neutral" :=
  ⟨c5_normalizer_object_truthy_chain.1 _ (1/2) rfl (by norm_num),
   c5_normalizer_object_truthy_chain.2.1 _ (Or.inr rfl),
   c5_normalizer_object_truthy_chain.2.2.1 _ "happy" rfl (by decide),
   c5_normalizer_object_truthy_chain.2.2.2.1 _ "sad" (Or.inr rfl) rfl (by decide),
   c5_normalizer_object_truthy_chain.2.2.2.2.1 _ "calm" (Or.inl rfl) (Or.inr rfl)
     rfl (by decide),
   c5_normalizer_object_truthy_chain.2.2.2.2.2.1 _ (Or.inl rfl) (Or.inr rfl)
     (Or.inl rfl)⟩

namespace Onboard

/-- RawAnswers from MirrorWithOnboarding.tsx: a partial record of the six
quiz answers (each `q1?..q6?: string`). -/
structure RawAnswers where
  q1 : Option String
  q2 : Option String
  q3 : Option String
  q4 : Option String
  q5 : Option String
  q6 : Option String
deriving DecidableEq

/-- OnboardingConfig from MirrorWithOnboarding.tsx. -/
structure OnboardingConfig where
  mode : String
  tone : String
  depth : String
  intervention_type : String
  frequency : String
  audio_enabled : Bool
  raw_answers : RawAnswers
deriving DecidableEq

/-- Tests whether the first list is an initial run of the second
(character-by-character comparison). -/
def leadEq : List Char → List Char → Bool
  | [], _ => true
  | _ :: _, [] => false
  | a :: as, b :: bs => a == b && leadEq as bs

/-- Tests whether `pat` occurs contiguously somewhere in the list. -/
def hasSub (pat : List Char) : List Char → Bool
  | [] => pat.isEmpty
  | c :: cs => leadEq pat (c :: cs) || hasSub pat cs

/-- JavaScript `s.includes(pat)`: substring containment. -/
def jsIncludes (s pat : String) : Bool := hasSub pat.toList s.toList

/-- JavaScript `s.toLowerCase()` restricted to the ASCII answers that occur
in the quiz options. -/
def jsToLower (s : String) : String := String.mk (s.toList.map Char.toLower)

/-- The pure mapper `mapAnswersToConfig` of MirrorWithOnboarding.tsx
(lines 35-74): each missing answer defaults to the empty string
(`raw.qN ?? ""`), and each field is decided by the keyword chain of the
source, falling through to its catch-all category. -/
def mapAnswersToConfig (raw : RawAnswers) : OnboardingConfig :=
  let q1 := raw.q1.getD ""
  let q2 := raw.q2.getD ""
  let q3 := raw.q3.getD ""
  let q4 := raw.q4.getD ""
  let q5 := raw.q5.getD ""
  let q6 := raw.q6.getD ""
  let mode :=
    if jsIncludes q1 "Understand" || jsIncludes (jsToLower q1) "mood" then "mood_monitoring"
    else if jsIncludes q1 "Emotional" then "emotional_support"
    else if jsIncludes q1 "Manage" then "stress_management"
    else "demo"
  let tone :=
    if jsIncludes q2 "Short" then "direct"
    else if jsIncludes q2 "Warm" then "warm"
    else "reflective"
  let depth :=
    if jsIncludes q3 "Avoid" then "light"
    else if jsIncludes q3 "Neutral" then "neutral"
    else "deep"
  let intervention_type :=
    if jsIncludes q4 "Calming" then "breathing"
    else if jsIncludes q4 "Encouraging" then "encouragement"
    else if jsIncludes q4 "Journaling" then "journaling"
    else "coping_tips"
  let frequency :=
    if jsIncludes q5 "Only" then "demo"
    else if jsIncludes q5 "day" then "daily"
    else "multiple_daily"
  let audio_enabled :=
    jsIncludes (jsToLower q6) "play" || jsIncludes (jsToLower q6) "voice"
  { mode := mode, tone := tone, depth := depth,
    intervention_type := intervention_type, frequency := frequency,
    audio_enabled := audio_enabled, raw_answers := raw }

/-- Outcome of the best-effort POST to /api/onboarding/config: a 2xx
response, a non-2xx response (res.ok false), or a thrown fetch error. -/
inductive RemoteOutcome where
  | ok
  | httpError (status : Nat)
  | networkError
deriving DecidableEq

/-- Environment of one handleSubmit run: whether localStorage.setItem throws,
and how the backend POST turns out. -/
structure SubmitEnv where
  localStorageFails : Bool
  remote : RemoteOutcome
deriving DecidableEq

/-- Observable outcome of one handleSubmit run. -/
structure SubmitResult where
  localSaved : Bool
  remoteAttempted : Bool
  message : String
  savingAtEnd : Bool
  onSavedConfig : Option OnboardingConfig
deriving DecidableEq

/-- handleSubmit of the OnboardingQuiz (MirrorWithOnboarding.tsx lines
125-159).  The local write sits in its own try/catch whose handler only
logs, so a localStorage failure falls through to the POST; the POST sits in
a second try/catch, so neither a non-2xx response nor a thrown fetch error
reaches the local write or the caller; and the finally block clears the
saving flag and invokes `onSaved?.(cfg)` on every path. -/
def handleSubmit (env : SubmitEnv) (raw : RawAnswers) : SubmitResult :=
  let cfg := mapAnswersToConfig raw
  let localSaved := !env.localStorageFails
  let msg :=
    match env.remote with
    | RemoteOutcome.ok => "Saved! Your preferences are set."
    | RemoteOutcome.httpError _ => "Saved locally. Backend save failed."
    | RemoteOutcome.networkError => "Saved locally. Could not reach backend."
  { localSaved := localSaved, remoteAttempted := true, message := msg,
    savingAtEnd := false, onSavedConfig := some cfg }

/-- The all-absent answer record {}. -/
def emptyAnswers : RawAnswers := ⟨none, none, none, none, none, none⟩

end Onboard

namespace Mirror

/-- The browser-side inputs of one captureFrame call: whether the video and
canvas refs are populated, whether getContext succeeds, the current video
track dimensions, and the size of the JPEG blob produced by canvas.toBlob
(none models a null blob). -/
structure CaptureEnv where
  videoPresent : Bool
  canvasPresent : Bool
  ctxPresent : Bool
  videoWidth : Nat
  videoHeight : Nat
  toBlobSize : Option Nat
deriving DecidableEq

/-- captureFrame of MirrorInterface.tsx (lines 243-278), returning the size
of the resolved Blob.  Missing refs, a missing 2d context, or zero video
dimensions resolve the promise with `new Blob()` (size 0) instead of
rejecting; a null toBlob result likewise falls back to the empty blob
(`resolve(blob || new Blob())`). -/
def captureFrame (env : CaptureEnv) : Nat :=
  if env.videoPresent = false ∨ env.canvasPresent = false then 0
  else if env.ctxPresent = false ∨ env.videoWidth = 0 ∨ env.videoHeight = 0 then 0
  else
    match env.toBlobSize with
    | some n => n
    | none => 0

/-- Outcome of the fetch to /analyze inside analyzeEmotion: a 2xx response
carrying the JSON emotion field, a non-2xx response (which the code turns
into a thrown Error), or a network error thrown by fetch itself. -/
inductive ServerOutcome where
  | ok (e : JSEmotion)
  | httpError
  | networkError
deriving DecidableEq

/-- Environment of one analyzeEmotion attempt: the capture inputs, the server
outcome, and the value of Math.floor(Math.random() * 5) used by the fallback
branch. -/
structure AttemptEnv where
  capture : CaptureEnv
  server : ServerOutcome
  randIdx : Fin 5
deriving DecidableEq

/-- The component state touched by analyzeEmotion. -/
structure MirrorState where
  isDetecting : Bool
  currentEmotion : Option EmotionResult
  emotionHistory : List EmotionResult
  detectionCount : Nat
deriving DecidableEq

/-- Result of one analyzeEmotion invocation: the updated state, whether a
network request was issued, and the value returned to the caller. -/
structure AttemptOutcome where
  state : MirrorState
  requested : Bool
  returned : Option EmotionResult
deriving DecidableEq

/-- analyzeEmotion of MirrorInterface.tsx (lines 158-241) as one atomic
attempt.  A call that reads the in-flight guard set returns null before the
try block, so it performs no work and leaves the guard alone.  Otherwise the
guard is set; an empty captured frame returns null from inside the try block
(no fetch, no state update) and the finally block clears the guard; a 2xx
response is normalized, recorded as currentEmotion, appended to the bounded
history and counted; a non-2xx response or fetch error lands in the catch
block, which substitutes a random member of mockEmotions, records it as
currentEmotion and counts it WITHOUT touching the history; the finally
block clears the guard on every one of these paths. -/
def analyzeEmotion (env : AttemptEnv) (s : MirrorState) : AttemptOutcome :=
  if s.isDetecting then ⟨s, false, none⟩
  else
    if captureFrame env.capture = 0 then
      ⟨{ s with isDetecting := false }, false, none⟩
    else
      match env.server with
      | ServerOutcome.ok e =>
          ⟨{ s with isDetecting := false,
                    currentEmotion := some (normalizeEmotion e),
                    detectionCount := s.detectionCount + 1,
                    emotionHistory := appendHistory s.emotionHistory (normalizeEmotion e) },
           true, some (normalizeEmotion e)⟩
      | ServerOutcome.httpError =>
          ⟨{ s with isDetecting := false,
                    currentEmotion := some (pickMock env.randIdx),
                    detectionCount := s.detectionCount + 1 },
           true, some (pickMock env.randIdx)⟩
      | ServerOutcome.networkError =>
          ⟨{ s with isDetecting := false,
                    currentEmotion := some (pickMock env.randIdx),
                    detectionCount := s.detectionCount + 1 },
           true, some (pickMock env.randIdx)⟩

lemma pickMock_mem (i : Fin 5) : pickMock i ∈ mockEmotions := by
  fin_cases i <;> simp [pickMock, mockEmotions]

/-- Where the single in-flight analyzeEmotion attempt currently stands:
no attempt, awaiting captureFrame, or awaiting the fetch response. -/
inductive Phase where
  | idle
  | capturing
  | requesting
deriving DecidableEq

/-- The resolution of an issued fetch: a 2xx JSON body, or a failure
(non-2xx or network error) together with the Math.random index picked by the
fallback branch. -/
inductive ServerReply where
  | ok (e : JSEmotion)
  | fail (i : Fin 5)
deriving DecidableEq

/-- Events of the scheduler trace: a 2-second interval tick, a
forceEmotionUpdate call, the resolution of the pending captureFrame (with
the emptiness of the produced frame), and the resolution of the pending
fetch. -/
inductive SchedEv where
  | tick
  | force
  | captureRet (empty : Bool)
  | respond (r : ServerReply)
deriving DecidableEq

/-- Scheduler state: the isDetecting guard flag, the phase of the current
attempt, the number of outstanding /analyze requests (the quantity the
overlap invariant bounds), and the data state written on completion. -/
structure SchedState where
  isDetecting : Bool
  phase : Phase
  pending : Nat
  currentEmotion : Option EmotionResult
  emotionHistory : List EmotionResult
  detectionCount : Nat
deriving DecidableEq

/-- Initial scheduler state (fresh component mount). -/
def schedInit : SchedState := ⟨false, Phase.idle, 0, none, [], 0⟩

/-- Entry of analyzeEmotion: `if (isDetecting) return null` drops the call
with no work and no queueing; otherwise the guard is set and the attempt
starts capturing a frame.  Both a timer tick and forceEmotionUpdate enter
through this same check. -/
def beginAttempt (s : SchedState) : SchedState :=
  if s.isDetecting then s
  else { s with isDetecting := true, phase := Phase.capturing }

/-- One scheduler event, following analyzeEmotion (MirrorInterface.tsx lines
158-241): an empty frame returns through the finally block (guard cleared,
no request); a nonempty frame issues the single fetch; the response
resolution applies the success or fallback update and clears the guard in
the finally block. -/
def schedStep (s : SchedState) : SchedEv → SchedState
  | SchedEv.tick => beginAttempt s
  | SchedEv.force => beginAttempt s
  | SchedEv.captureRet empty =>
      match s.phase with
      | Phase.capturing =>
          if empty then { s with isDetecting := false, phase := Phase.idle }
          else { s with phase := Phase.requesting, pending := s.pending + 1 }
      | _ => s
  | SchedEv.respond r =>
      match s.phase with
      | Phase.requesting =>
          match r with
          | ServerReply.ok e =>
              { s with isDetecting := false, phase := Phase.idle,
                       pending := s.pending - 1,
                       currentEmotion := some (normalizeEmotion e),
                       detectionCount := s.detectionCount + 1,
                       emotionHistory := appendHistory s.emotionHistory (normalizeEmotion e) }
          | ServerReply.fail i =>
              { s with isDetecting := false, phase := Phase.idle,
                       pending := s.pending - 1,
                       currentEmotion := some (pickMock i),
                       detectionCount := s.detectionCount + 1 }
      | _ => s

/-- A whole trace of scheduler events. -/
def runSched (es : List SchedEv) (s : SchedState) : SchedState :=
  es.foldl schedStep s

/-- The inductive invariant: a request is outstanding exactly while the
attempt is in the requesting phase, and the guard flag is set exactly while
an attempt is underway. -/
def SchedInv (s : SchedState) : Prop :=
  s.pending = (if s.phase = Phase.requesting then 1 else 0) ∧
  s.isDetecting = decide (s.phase ≠ Phase.idle)

lemma schedStep_inv {s : SchedState} (h : SchedInv s) (e : SchedEv) :
    SchedInv (schedStep s e) := by
  obtain ⟨hp, hd⟩ := h
  obtain ⟨d, ph, p, cur, hist, n⟩ := s
  simp only at hp hd
  cases e with
  | tick =>
      cases ph <;> simp_all [schedStep, beginAttempt, SchedInv]
  | force =>
      cases ph <;> simp_all [schedStep, beginAttempt, SchedInv]
  | captureRet empty =>
      cases ph <;> cases empty <;> simp_all [schedStep, SchedInv]
  | respond r =>
      cases ph <;> cases r <;> simp_all [schedStep, SchedInv]

lemma runSched_inv (es : List SchedEv) :
    ∀ s : SchedState, SchedInv s → SchedInv (runSched es s) := by
  induction es with
  | nil => intro s h; simpa [runSched] using h
  | cons e es ih =>
      intro s h
      simpa [runSched] using ih (schedStep s e) (schedStep_inv h e)

end Mirror

/-- C1: along every trace of scheduler ticks, forced samples and completion
events starting from the initial state, at most one /analyze request from
the scheduler is outstanding at any instant; a tick or forceEmotionUpdate
call that finds the isDetecting guard set leaves the state exactly unchanged
(the call is dropped, not queued, and issues no request); and every
completed attempt — a response or failure for the outstanding request, or a
skip on an empty frame — clears the guard. -/
theorem c1_at_most_one_inflight :
    (∀ es : List Mirror.SchedEv,
      (Mirror.runSched es Mirror.schedInit).pending ≤ 1) ∧
    (∀ s : Mirror.SchedState, s.isDetecting = true →
      Mirror.schedStep s Mirror.SchedEv.tick = s ∧
      Mirror.schedStep s Mirror.SchedEv.force = s) ∧
    (∀ (s : Mirror.SchedState) (r : Mirror.ServerReply),
      s.phase = Mirror.Phase.requesting →
      (Mirror.schedStep s (Mirror.SchedEv.respond r)).isDetecting = false) ∧
    (∀ s : Mirror.SchedState, s.phase = Mirror.Phase.capturing →
      (Mirror.schedStep s (Mirror.SchedEv.captureRet true)).isDetecting = false) := by
  refine ⟨?_, ?_, ?_, ?_⟩
  · intro es
    have h := Mirror.runSched_inv es Mirror.schedInit
      (by constructor <;> rfl)
    rcases h with ⟨hp, -⟩
    rw [hp]
    split <;> omega
  · intro s hs
    constructor <;> simp [Mirror.schedStep, Mirror.beginAttempt, hs]
  · intro s r hs
    cases r <;> simp [Mirror.schedStep, hs]
  · intro s hs
    simp [Mirror.schedStep, hs]

/-- C1 witness: the invariant on a concrete trace that issues and completes
a request, a dropped tick and forced sample on a busy state, and concrete
guard releases. -/
theorem c1_at_most_one_inflight_witness :
    (Mirror.runSched [Mirror.SchedEv.tick, Mirror.SchedEv.captureRet false,
        Mirror.SchedEv.tick, Mirror.SchedEv.force,
        Mirror.SchedEv.respond (Mirror.ServerReply.fail 0)]
        Mirror.schedInit).pending ≤ 1 ∧
    Mirror.schedStep ⟨true, Mirror.Phase.capturing, 0, none, [], 0⟩
        Mirror.SchedEv.tick =
      ⟨true, Mirror.Phase.capturing, 0, none, [], 0⟩ ∧
    Mirror.schedStep ⟨true, Mirror.Phase.capturing, 0, none, [], 0⟩
        Mirror.SchedEv.force =
      ⟨true, Mirror.Phase.capturing, 0, none, [], 0⟩ ∧
    (Mirror.schedStep ⟨true, Mirror.Phase.requesting, 1, none, [], 0⟩
        (Mirror.SchedEv.respond (Mirror.ServerReply.fail 3))).isDetecting = false ∧
    (Mirror.schedStep ⟨true, Mirror.Phase.capturing, 0, none, [], 0⟩
        (Mirror.SchedEv.captureRet true)).isDetecting = false :=
  ⟨c1_at_most_one_inflight.1 _,
   (c1_at_most_one_inflight.2.1 ⟨true, Mirror.Phase.capturing, 0, none, [], 0⟩ rfl).1,
   (c1_at_most_one_inflight.2.1 ⟨true, Mirror.Phase.capturing, 0, none, [], 0⟩ rfl).2,
   c1_at_most_one_inflight.2.2.1 ⟨true, Mirror.Phase.requesting, 1, none, [], 0⟩
     (Mirror.ServerReply.fail 3) rfl,
   c1_at_most_one_inflight.2.2.2 ⟨true, Mirror.Phase.capturing, 0, none, [], 0⟩ rfl⟩

namespace Mirror

/-- State of the explicit recording flow of MirrorInterface.tsx: the stream
ref, the isRecording flag, the MediaRecorder ref together with the number of
MediaRecorder.stop() calls issued on it (each such call fires its onstop
handler exactly once), the periodic capture interval, the accumulated audio
chunk sizes, and the number of uploadToAnalyze invocations. -/
structure RecFlow where
  streamPresent : Bool
  isRecording : Bool
  recorderPresent : Bool
  recorderStops : Nat
  intervalActive : Bool
  chunks : List Nat
  uploads : Nat
deriving DecidableEq

/-- startRecording (MirrorInterface.tsx lines 335-416): with no stream it
only shows a toast and returns; otherwise it resets the chunk buffer,
creates a fresh MediaRecorder, starts it, sets isRecording and arms the
periodic capture interval. -/
def startRecording (s : RecFlow) : RecFlow :=
  if s.streamPresent = false then s
  else { s with chunks := [], recorderPresent := true, recorderStops := 0,
                isRecording := true, intervalActive := true }

/-- The ondataavailable handler (lines 359-363): a chunk is buffered only
when its size is positive. -/
def recDataAvailable (sz : Nat) (s : RecFlow) : RecFlow :=
  if 0 < sz then { s with chunks := s.chunks ++ [sz] } else s

/-- stopRecording (lines 418-434): only when the recorder ref is set AND the
isRecording flag is still up does it call MediaRecorder.stop(), clear the
capture interval and drop the flag; otherwise it does nothing at all. -/
def stopRecording (s : RecFlow) : RecFlow :=
  if s.recorderPresent = true ∧ s.isRecording = true then
    { s with recorderStops := s.recorderStops + 1, intervalActive := false,
             isRecording := false }
  else s

/-- The onstop handler (lines 365-381): with an empty chunk buffer it shows
a toast and returns without uploading; otherwise it assembles the audio
blob, captures a frame and invokes uploadToAnalyze once. -/
def recOnStop (s : RecFlow) : RecFlow :=
  if s.chunks = [] then s else { s with uploads := s.uploads + 1 }

/-- stopVideo state of MirrorInterface.tsx: the stream ref with its track
handles, the isVideoActive flag, the emotion interval and guard cleared by
stopEmotionDetection, and a log of the tracks on which track.stop() ran. -/
structure VideoState where
  stream : Option (List Nat)
  isVideoActive : Bool
  emotionTimerOn : Bool
  isDetecting : Bool
  stoppedTrackLog : List Nat
deriving DecidableEq

/-- stopEmotionDetection (lines 150-156): clears the interval and the
guard. -/
def stopEmotionDetection (s : VideoState) : VideoState :=
  { s with emotionTimerOn := false, isDetecting := false }

/-- stopVideo (MirrorInterface.tsx lines 109-116): when the stream ref is
set it stops every track, nulls the ref, drops isVideoActive and stops
emotion detection; when the ref is already null the whole body is skipped
and nothing happens. -/
def stopVideo (s : VideoState) : VideoState :=
  match s.stream with
  | some tracks =>
      stopEmotionDetection
        { s with stream := none, isVideoActive := false,
                 stoppedTrackLog := s.stoppedTrackLog ++ tracks }
  | none => s

/-- stopVideo state of MirrorWithOnboarding.tsx (no emotion detection). -/
structure OnbVideoState where
  stream : Option (List Nat)
  isVideoActive : Bool
  stoppedTrackLog : List Nat
deriving DecidableEq

/-- stopVideo of MirrorWithOnboarding.tsx (lines 278-284). -/
def stopVideoOnb (s : OnbVideoState) : OnbVideoState :=
  match s.stream with
  | some tracks =>
      { s with stream := none, isVideoActive := false,
               stoppedTrackLog := s.stoppedTrackLog ++ tracks }
  | none => s

end Mirror

/-- C3: a start() immediately followed by two rapid stop() calls invokes
uploadToAnalyze exactly once: the first stop performs the single
MediaRecorder.stop() (hence a single onstop event, the only trigger of the
upload), the second stop observes the cleared recording flag and changes
nothing, and the one onstop uploads exactly once when the recorder flushed a
nonempty chunk — and never more than once regardless. -/
theorem c3_double_stop_single_upload :
    ∀ (s0 : Mirror.RecFlow) (flush : Nat),
      s0.streamPresent = true →
      (Mirror.stopRecording (Mirror.startRecording s0)).isRecording = false ∧
      Mirror.stopRecording (Mirror.stopRecording (Mirror.startRecording s0)) =
        Mirror.stopRecording (Mirror.startRecording s0) ∧
      (Mirror.stopRecording (Mirror.startRecording s0)).recorderStops = 1 ∧
      (0 < flush →
        (Mirror.recOnStop (Mirror.recDataAvailable flush
            (Mirror.stopRecording (Mirror.stopRecording
              (Mirror.startRecording s0))))).uploads = s0.uploads + 1) ∧
      (Mirror.recOnStop (Mirror.recDataAvailable flush
          (Mirror.stopRecording (Mirror.stopRecording
            (Mirror.startRecording s0))))).uploads ≤ s0.uploads + 1 := by
  intro s0 flush hstream
  have hstart : Mirror.startRecording s0 =
      { s0 with chunks := [], recorderPresent := true, recorderStops := 0,
                isRecording := true, intervalActive := true } := by
    simp [Mirror.startRecording, hstream]
  have hstop1 : Mirror.stopRecording (Mirror.startRecording s0) =
      { s0 with chunks := [], recorderPresent := true, recorderStops := 1,
                isRecording := false, intervalActive := false } := by
    rw [hstart]; simp [Mirror.stopRecording]
  have hstop2 : Mirror.stopRecording (Mirror.stopRecording (Mirror.startRecording s0)) =
      Mirror.stopRecording (Mirror.startRecording s0) := by
    rw [hstop1]; simp [Mirror.stopRecording]
  refine ⟨by rw [hstop1], hstop2, by rw [hstop1], ?_, ?_⟩
  · intro hflush
    rw [hstop2, hstop1]
    simp [Mirror.recDataAvailable, Mirror.recOnStop, hflush]
  · rw [hstop2, hstop1]
    by_cases hflush : 0 < flush <;>
      simp [Mirror.recDataAvailable, Mirror.recOnStop, hflush]

/-- C3 witness: the scenario run from a concrete idle state with a 512-byte
flush chunk. -/
theorem c3_double_stop_single_upload_witness :
    Mirror.stopRecording (Mirror.stopRecording
        (Mirror.startRecording ⟨true, false, false, 0, false, [], 0⟩)) =
      Mirror.stopRecording
        (Mirror.startRecording ⟨true, false, false, 0, false, [], 0⟩) ∧
    (Mirror.recOnStop (Mirror.recDataAvailable 512
        (Mirror.stopRecording (Mirror.stopRecording
          (Mirror.startRecording ⟨true, false, false, 0, false, [], 0⟩))))).uploads = 1 :=
  ⟨(c3_double_stop_single_upload ⟨true, false, false, 0, false, [], 0⟩ 512 rfl).2.1,
   (c3_double_stop_single_upload ⟨true, false, false, 0, false, [], 0⟩ 512
      rfl).2.2.2.1 (by omega)⟩

/-- C9: releasing the media session is idempotent: stopVideo on a state whose
stream ref is already null (released or never acquired) is a no-op that
changes nothing and stops no further tracks, and stopVideo twice in a row
equals stopVideo once — in both mirror components. -/
theorem c9_stop_video_idempotent :
    ∀ (s : Mirror.VideoState) (t : Mirror.OnbVideoState),
      Mirror.stopVideo (Mirror.stopVideo s) = Mirror.stopVideo s ∧
      (s.stream = none → Mirror.stopVideo s = s) ∧
      Mirror.stopVideoOnb (Mirror.stopVideoOnb t) = Mirror.stopVideoOnb t ∧
      (t.stream = none → Mirror.stopVideoOnb t = t) := by
  intro s t
  obtain ⟨st, a, b, c, log⟩ := s
  obtain ⟨st2, a2, log2⟩ := t
  cases st <;> cases st2 <;>
    simp [Mirror.stopVideo, Mirror.stopVideoOnb, Mirror.stopEmotionDetection]

/-- C9 witness: double release after a release, and release of a
never-acquired session, on concrete states. -/
theorem c9_stop_video_idempotent_witness :
    Mirror.stopVideo (Mirror.stopVideo ⟨some [1, 2], true, true, false, []⟩) =
      Mirror.stopVideo ⟨some [1, 2], true, true, false, []⟩ ∧
    Mirror.stopVideo ⟨none, false, false, false, [1, 2]⟩ =
      ⟨none, false, false, false, [1, 2]⟩ ∧
    Mirror.stopVideoOnb ⟨none, true, []⟩ = ⟨none, true, []⟩ :=
  ⟨(c9_stop_video_idempotent ⟨some [1, 2], true, true, false, []⟩ ⟨none, true, []⟩).1,
   (c9_stop_video_idempotent ⟨none, false, false, false, [1, 2]⟩
      ⟨none, true, []⟩).2.1 rfl,
   (c9_stop_video_idempotent ⟨some [1, 2], true, true, false, []⟩
      ⟨none, true, []⟩).2.2.2 rfl⟩

namespace Checkin

/-- State of the check-in recorder of src/unnamed/part_000: the stream ref,
the committed isRecording React state, the MediaRecorder ref, and the number
of MediaRecorder.stop() calls. -/
structure P0State where
  streamPresent : Bool
  isRecording : Bool
  recorderPresent : Bool
  stopCalls : Nat
deriving DecidableEq

/-- The auto-stop setTimeout callback scheduled by startRecording.  A React
useState binding is a per-render constant: the callback closes over the
`isRecording` const of the render in which startRecording ran, not over a
live cell, so the value it will test at fire time is frozen here. -/
structure AutoStopTimer where
  capturedIsRecording : Bool
deriving DecidableEq

/-- startRecording of part_000 (lines 58-85): bails out without a stream;
otherwise starts the recorder, sets isRecording, and schedules the 3-second
auto-stop callback.  At the moment the callback is created, the render's
`isRecording` const still holds the pre-update value (setIsRecording only
affects later renders), so that value is what the closure captures. -/
def startRecording (s : P0State) : P0State × Option AutoStopTimer :=
  if s.streamPresent = false then (s, none)
  else ({ s with recorderPresent := true, isRecording := true },
        some ⟨s.isRecording⟩)

/-- stopRecording of part_000 (lines 87-96), reading the `isRecording`
binding of the render it belongs to: it stops the recorder and drops the
flag only when the recorder ref is set and that binding is true. -/
def stopRecording (renderIsRecording : Bool) (s : P0State) : P0State :=
  if s.recorderPresent = true ∧ renderIsRecording = true then
    { s with stopCalls := s.stopCalls + 1, isRecording := false }
  else s

/-- The auto-stop timer firing 3 seconds later (lines 80-84):
`if (isRecording) stopRecording()` evaluated against the captured binding —
both the test and the stopRecording it would call see the same frozen
value. -/
def autoStopFire (t : AutoStopTimer) (s : P0State) : P0State :=
  if t.capturedIsRecording = true then stopRecording t.capturedIsRecording s
  else s

/-- The idle mount state from which handleCheckin starts a recording (the
check-in button is disabled while isRecording, so startRecording only ever
runs with isRecording = false). -/
def p0Init : P0State := ⟨true, false, false, 0⟩

end Checkin

/-- C4: evaluation of the auto-stop variant at its failing input.  After
start() from the idle state the session is recording and stop() was never
called, so by the claim the scheduled callback must invoke stop() when the
3-second timer fires.  It does not: the callback captured the pre-start
isRecording binding (false), so firing the timer changes nothing — no
MediaRecorder.stop() ever happens and the session keeps recording.  The last
conjunct shows the update the claim (and the source comment: Auto-stop after
3 seconds) intends: testing the LIVE flag at fire time would have stopped
the recorder. -/
theorem c4_autostop_timer_never_stops :
    (Checkin.startRecording Checkin.p0Init).2 =
      some ⟨false⟩ ∧
    (Checkin.startRecording Checkin.p0Init).1.isRecording = true ∧
    (Checkin.startRecording Checkin.p0Init).1.stopCalls = 0 ∧
    Checkin.autoStopFire ⟨false⟩ (Checkin.startRecording Checkin.p0Init).1 =
      (Checkin.startRecording Checkin.p0Init).1 ∧
    (Checkin.autoStopFire ⟨false⟩
        (Checkin.startRecording Checkin.p0Init).1).stopCalls = 0 ∧
    (Checkin.stopRecording
        (Checkin.startRecording Checkin.p0Init).1.isRecording
        (Checkin.startRecording Checkin.p0Init).1).stopCalls = 1 := by
  refine ⟨rfl, rfl, rfl, ?_, rfl, rfl⟩
  simp [Checkin.autoStopFire]

/-- C8: when the video or canvas ref is missing, the 2d context is
unavailable, or the video dimensions are still zero, captureFrame returns the
zero-size empty-frame sentinel instead of failing; an analyzeEmotion attempt
that receives this sentinel skips the cycle: it issues no network request,
records no result (currentEmotion, emotionHistory and detectionCount are
untouched), returns null rather than surfacing an error, and releases the
in-flight guard so the next tick proceeds. -/
theorem c8_empty_frame_skips_cycle :
    ∀ (env : Mirror.AttemptEnv) (s : Mirror.MirrorState),
      s.isDetecting = false →
      (env.capture.videoPresent = false ∨ env.capture.canvasPresent = false ∨
       env.capture.ctxPresent = false ∨ env.capture.videoWidth = 0 ∨
       env.capture.videoHeight = 0) →
      Mirror.captureFrame env.capture = 0 ∧
      (Mirror.analyzeEmotion env s).requested = false ∧
      (Mirror.analyzeEmotion env s).returned = none ∧
      (Mirror.analyzeEmotion env s).state = s ∧
      (Mirror.analyzeEmotion env s).state.isDetecting = false := by
  intro env s hguard hempty
  have hframe : Mirror.captureFrame env.capture = 0 := by
    rcases hempty with h | h | h | h | h <;> simp [Mirror.captureFrame, h]
  have hstate : (Mirror.analyzeEmotion env s).state = s := by
    obtain ⟨d, c, hist, n⟩ := s
    simp only [Mirror.MirrorState.isDetecting] at hguard
    subst hguard
    simp [Mirror.analyzeEmotion, hframe]
  refine ⟨hframe, ?_, ?_, hstate, ?_⟩
  · simp [Mirror.analyzeEmotion, hguard, hframe]
  · simp [Mirror.analyzeEmotion, hguard, hframe]
  · rw [hstate]; exact hguard

/-- C8 witness: a concrete attempt on a not-yet-ready video (zero
dimensions) is skipped without a request. -/
theorem c8_empty_frame_skips_cycle_witness :
    Mirror.captureFrame ⟨true, true, true, 0, 0, some 100⟩ = 0 ∧
    (Mirror.analyzeEmotion ⟨⟨true, true, true, 0, 0, some 100⟩,
        Mirror.ServerOutcome.httpError, 0⟩ ⟨false, none, [], 0⟩).requested = false ∧
    (Mirror.analyzeEmotion ⟨⟨true, true, true, 0, 0, some 100⟩,
        Mirror.ServerOutcome.httpError, 0⟩ ⟨false, none, [], 0⟩).state =
      ⟨false, none, [], 0⟩ := by
  have h := c8_empty_frame_skips_cycle
    ⟨⟨true, true, true, 0, 0, some 100⟩, Mirror.ServerOutcome.httpError, 0⟩
    ⟨false, none, [], 0⟩ rfl (Or.inr (Or.inr (Or.inr (Or.inl rfl))))
  exact ⟨h.1, h.2.1, h.2.2.2.1⟩

/-- C10: on a failed analysis attempt (non-2xx response or network error),
the fallback path of analyzeEmotion updates only currentEmotion — to a member
of the fixed five-element mock candidate set — and increments detectionCount
by one, while emotionHistory is left completely unchanged (the fallback
result is never appended to the history, unlike a successful result); the
in-flight guard is released. -/
theorem c10_fallback_skips_history :
    ∀ (env : Mirror.AttemptEnv) (s : Mirror.MirrorState),
      s.isDetecting = false →
      Mirror.captureFrame env.capture ≠ 0 →
      (env.server = Mirror.ServerOutcome.httpError ∨
       env.server = Mirror.ServerOutcome.networkError) →
      (Mirror.analyzeEmotion env s).state.emotionHistory = s.emotionHistory ∧
      (Mirror.analyzeEmotion env s).state.currentEmotion =
        some (Mirror.pickMock env.randIdx) ∧
      Mirror.pickMock env.randIdx ∈ Mirror.mockEmotions ∧
      (Mirror.analyzeEmotion env s).state.detectionCount = s.detectionCount + 1 ∧
      (Mirror.analyzeEmotion env s).state.isDetecting = false ∧
      (Mirror.analyzeEmotion env s).requested = true := by
  intro env s hguard hframe hfail
  rcases hfail with h | h <;>
    refine ⟨?_, ?_, Mirror.pickMock_mem env.randIdx, ?_, ?_, ?_⟩ <;>
    simp [Mirror.analyzeEmotion, hguard, hframe, h]

/-- C10 witness: a concrete failed attempt leaves a nonempty history intact
and records the selected mock emotion. -/
theorem c10_fallback_skips_history_witness :
    (Mirror.analyzeEmotion ⟨⟨true, true, true, 640, 480, some 4096⟩,
        Mirror.ServerOutcome.networkError, 2⟩
        ⟨false, none, [⟨"happy", 1/2, none⟩], 7⟩).state.emotionHistory =
      [⟨"happy", 1/2, none⟩] ∧
    (Mirror.analyzeEmotion ⟨⟨true, true, true, 640, 480, some 4096⟩,
        Mirror.ServerOutcome.networkError, 2⟩
        ⟨false, none, [⟨"happy", 1/2, none⟩], 7⟩).state.currentEmotion =
      some (Mirror.pickMock 2) ∧
    (Mirror.analyzeEmotion ⟨⟨true, true, true, 640, 480, some 4096⟩,
        Mirror.ServerOutcome.networkError, 2⟩
        ⟨false, none, [⟨"happy", 1/2, none⟩], 7⟩).state.detectionCount = 8 := by
  have h := c10_fallback_skips_history
    ⟨⟨true, true, true, 640, 480, some 4096⟩, Mirror.ServerOutcome.networkError, 2⟩
    ⟨false, none, [⟨"happy", 1/2, none⟩], 7⟩ rfl
    (by simp [Mirror.captureFrame]) (Or.inr rfl)
  exact ⟨h.1, h.2.1, h.2.2.2.1⟩

/-- C6: mapAnswersToConfig({}) — every answer missing — returns exactly
{mode:"demo", tone:"reflective", depth:"deep", intervention_type:"coping_tips",
frequency:"multiple_daily", audio_enabled:false, raw_answers:{}}: each missing
answer defaults to "" and resolves to the field's catch-all category. -/
theorem c6_map_empty_answers_defaults :
    Onboard.mapAnswersToConfig Onboard.emptyAnswers =
      ⟨"demo", "reflective", "deep", "coping_tips", "multiple_daily", false,
       Onboard.emptyAnswers⟩ := by
  rfl

/-- C7: onboarding persistence is best-effort and independent: the remote
submission is attempted whatever the local write did, the local save outcome
depends only on the local failure flag (a remote failure neither undoes nor
blocks it), and the mapped OnboardingConfig reaches the onSaved caller under
every combination of outcomes, with the saving flag cleared. -/
theorem c7_submit_best_effort_independent :
    ∀ (a b : Onboard.SubmitEnv) (raw : Onboard.RawAnswers),
      (Onboard.handleSubmit a raw).remoteAttempted = true ∧
      (a.remote = b.remote →
        (Onboard.handleSubmit a raw).remoteAttempted =
          (Onboard.handleSubmit b raw).remoteAttempted) ∧
      (a.localStorageFails = b.localStorageFails →
        (Onboard.handleSubmit a raw).localSaved =
          (Onboard.handleSubmit b raw).localSaved) ∧
      (Onboard.handleSubmit a raw).localSaved = !a.localStorageFails ∧
      (Onboard.handleSubmit a raw).onSavedConfig =
        some (Onboard.mapAnswersToConfig raw) ∧
      (Onboard.handleSubmit a raw).savingAtEnd = false := by
  intro a b raw
  refine ⟨rfl, fun _ => rfl, fun h => ?_, rfl, rfl, rfl⟩
  simp [Onboard.handleSubmit, h]

/-- C7 witness: a failing local write combined with a failing remote POST
still attempts the POST, and still delivers the mapped config. -/
theorem c7_submit_best_effort_independent_witness :
    (Onboard.handleSubmit ⟨true, Onboard.RemoteOutcome.networkError⟩
        Onboard.emptyAnswers).remoteAttempted = true ∧
    (Onboard.handleSubmit ⟨true, Onboard.RemoteOutcome.networkError⟩
          Onboard.emptyAnswers).localSaved =
      (Onboard.handleSubmit ⟨true, Onboard.RemoteOutcome.ok⟩
          Onboard.emptyAnswers).localSaved ∧
    (Onboard.handleSubmit ⟨true, Onboard.RemoteOutcome.networkError⟩
          Onboard.emptyAnswers).onSavedConfig =
      some (Onboard.mapAnswersToConfig Onboard.emptyAnswers) :=
  ⟨(c7_submit_best_effort_independent ⟨true, Onboard.RemoteOutcome.networkError⟩
      ⟨true, Onboard.RemoteOutcome.ok⟩ Onboard.emptyAnswers).1,
   (c7_submit_best_effort_independent ⟨true, Onboard.RemoteOutcome.networkError⟩
      ⟨true, Onboard.RemoteOutcome.ok⟩ Onboard.emptyAnswers).2.2.1 rfl,
   (c7_submit_best_effort_independent ⟨true, Onboard.RemoteOutcome.networkError⟩
      ⟨true, Onboard.RemoteOutcome.ok⟩ Onboard.emptyAnswers).2.2.2.2.1⟩

end ReflectAI
